import Mathlib

set_option autoImplicit false

/-
  Shallow embedding of the dual-write synchronization core of the
  hospital-demo application: the document-store mirror layer
  (`mongo.py`: Record Synchronizer + Query Façade) and the mirroring
  steps of the web routes (`app.py`).

  The document store is modelled as an optional collection handle
  (the `None` sentinel of the disconnected state) holding a list of
  documents, each carrying an internal object identity `oid`
  (Mongo's `_id`).  Driver calls that may throw are modelled by a
  `Driver` behaviour parameter: `normal` (the call succeeds) or
  `raise msg` (the driver throws an exception whose `str` is `msg`),
  which each Python `try/except` boundary converts into the
  structured failure dictionary.
-/

namespace HospitalSync

/-- A user document as stored in the `users` collection
(`mongo.py`, `insert_user`): `_id` is the internal object identity. -/
structure UserDoc where
  oid : Nat
  username : String
  password_hash : String
  role : String
  created_at : Nat
deriving Repr, DecidableEq

/-- A patient document as stored in the `patients` collection.
`created_at`, `added_by` and `source` are optional because the
upsert path of the `/patients/update` route (`app.py`) can create a
document carrying only the filter field `id` and the three
`$set` fields `name`, `age`, `condition`. -/
structure PatientDoc where
  oid : Nat
  id : Int
  name : String
  age : Int
  condition : String
  created_at : Option Nat
  added_by : Option String
  source : Option String
deriving Repr, DecidableEq

/-- A user record as returned by the query façade: the projection
`{"_id": 0}` strips the internal object identity. -/
structure UserRecord where
  username : String
  password_hash : String
  role : String
  created_at : Nat
deriving Repr, DecidableEq

/-- A patient record as returned by the query façade (internal
object identity stripped by the `{"_id": 0}` projection). -/
structure PatientRecord where
  id : Int
  name : String
  age : Int
  condition : String
  created_at : Option Nat
  added_by : Option String
  source : Option String
deriving Repr, DecidableEq

/-- A collection: its documents in insertion order, plus the next
fresh internal object identity. -/
structure Collection (α : Type) where
  docs : List α
  nextOid : Nat
deriving Repr, DecidableEq

/-- The module-level state of `mongo.py`: the two collection
handles; `none` is the disconnected sentinel left by a failed
`connect_to_mongodb()`. -/
structure MongoState where
  users_collection : Option (Collection UserDoc)
  patients_collection : Option (Collection PatientDoc)
deriving Repr, DecidableEq

/-- Behaviour of the underlying driver during one operation:
either the call completes normally, or it throws an exception whose
message is `msg` (caught by the operation's `try/except`). -/
inductive Driver where
  | normal
  | raise (msg : String)
deriving Repr, DecidableEq

/-- The structured result dictionary returned by the Record
Synchronizer operations of `mongo.py`. -/
structure SyncResult where
  success : Bool := false
  error : Option String := none
  user_id : Option String := none
  patient_id : Option String := none
  modified_count : Option Nat := none
  deleted_count : Option Nat := none
deriving Repr, DecidableEq

/-- A `$set` update document for a patient, as passed to
`update_patient(patient_id, update_data)`: only the named fields
are written. -/
structure PatientUpdate where
  name : Option String := none
  age : Option Int := none
  condition : Option String := none
  added_by : Option String := none
  source : Option String := none
  created_at : Option Nat := none
deriving Repr, DecidableEq

/-- Mongo `$set` semantics on one patient document: each field
named in the update document is written, every other field is left
unchanged (`id` and the internal `oid` are never named). -/
def applySet (u : PatientUpdate) (d : PatientDoc) : PatientDoc :=
  { d with
    name := u.name.getD d.name
    age := u.age.getD d.age
    condition := u.condition.getD d.condition
    added_by := match u.added_by with | none => d.added_by | some s => some s
    source := match u.source with | none => d.source | some s => some s
    created_at := match u.created_at with | none => d.created_at | some t => some t }

/-- Mongo `update_one({"id": pid}, {"$set": u})`: updates the first
document matching the `id` equality filter; returns the modified
count (1 when the write changed the document, 0 on a no-op or when
nothing matched) together with the resulting document list. -/
def update_one (pid : Int) (u : PatientUpdate) : List PatientDoc → Nat × List PatientDoc
  | [] => (0, [])
  | d :: ds =>
    if d.id = pid then
      (if applySet u d = d then 0 else 1, applySet u d :: ds)
    else
      let r := update_one pid u ds
      (r.1, d :: r.2)

/-- Mongo `delete_one({"id": pid})`: removes the first document
matching the `id` equality filter; returns the deleted count
(0 or 1) together with the resulting document list. -/
def delete_one (pid : Int) : List PatientDoc → Nat × List PatientDoc
  | [] => (0, [])
  | d :: ds =>
    if d.id = pid then
      (1, ds)
    else
      let r := delete_one pid ds
      (r.1, d :: r.2)

/-- The `{"_id": 0}` projection on a patient document. -/
def stripMongoId (d : PatientDoc) : PatientRecord :=
  { id := d.id, name := d.name, age := d.age, condition := d.condition,
    created_at := d.created_at, added_by := d.added_by, source := d.source }

/-- The `{"_id": 0}` projection on a user document. -/
def stripUserMongoId (d : UserDoc) : UserRecord :=
  { username := d.username, password_hash := d.password_hash,
    role := d.role, created_at := d.created_at }

namespace Mongo

/-- `mongo.py` `insert_user(username, password_hash, role)`:
disconnected guard, then a document with a fresh creation timestamp
(the `now` parameter models `datetime.now(timezone.utc)`) is
inserted; any driver exception is caught and returned as
`{success: False, error: str(e)}`. -/
def insert_user (st : MongoState) (beh : Driver) (now : Nat)
    (username password_hash role : String) : SyncResult × MongoState :=
  match st.users_collection with
  | none => ({ success := false, error := some "MongoDB not connected" }, st)
  | some coll =>
    match beh with
    | .raise msg => ({ success := false, error := some msg }, st)
    | .normal =>
      let doc : UserDoc :=
        { oid := coll.nextOid, username := username,
          password_hash := password_hash, role := role, created_at := now }
      ({ success := true, user_id := some (toString coll.nextOid) },
       { st with
          users_collection := some ⟨coll.docs ++ [doc], coll.nextOid + 1⟩ })

/-- `mongo.py` `insert_patient(patient_id, name, age, condition, added_by)`:
disconnected guard, then a document carrying the copied relational
`id`, a creation timestamp, `added_by` and the constant provenance
tag `"web_form"` is inserted. -/
def insert_patient (st : MongoState) (beh : Driver) (now : Nat)
    (patient_id : Int) (name : String) (age : Int)
    (condition added_by : String) : SyncResult × MongoState :=
  match st.patients_collection with
  | none => ({ success := false, error := some "MongoDB not connected" }, st)
  | some coll =>
    match beh with
    | .raise msg => ({ success := false, error := some msg }, st)
    | .normal =>
      let doc : PatientDoc :=
        { oid := coll.nextOid, id := patient_id, name := name, age := age,
          condition := condition, created_at := some now,
          added_by := some added_by, source := some "web_form" }
      ({ success := true, patient_id := some (toString coll.nextOid) },
       { st with
          patients_collection := some ⟨coll.docs ++ [doc], coll.nextOid + 1⟩ })

/-- `mongo.py` `get_all_users()`: empty list when disconnected or
on a driver exception, else every document with `_id` stripped. -/
def get_all_users (st : MongoState) (beh : Driver) : List UserRecord :=
  match st.users_collection with
  | none => []
  | some coll =>
    match beh with
    | .raise _ => []
    | .normal => coll.docs.map stripUserMongoId

/-- Sort key of the `.sort("created_at", -1)` clause: a missing
`created_at` compares below every present timestamp (Mongo's null
ordering). -/
def createdKey (d : PatientDoc) : Nat :=
  match d.created_at with
  | none => 0
  | some t => t + 1

/-- Insertion step of the descending-by-`created_at` sort. -/
def insertDesc (d : PatientDoc) : List PatientDoc → List PatientDoc
  | [] => [d]
  | x :: xs =>
    if createdKey x < createdKey d then d :: x :: xs else x :: insertDesc d xs

/-- The `.sort("created_at", -1)` clause of `get_all_patients`. -/
def sortByCreatedDesc : List PatientDoc → List PatientDoc
  | [] => []
  | d :: ds => insertDesc d (sortByCreatedDesc ds)

/-- `mongo.py` `get_all_patients()`: empty list when disconnected
or on a driver exception, else every document with `_id` stripped,
ordered by descending creation time. -/
def get_all_patients (st : MongoState) (beh : Driver) : List PatientRecord :=
  match st.patients_collection with
  | none => []
  | some coll =>
    match beh with
    | .raise _ => []
    | .normal => (sortByCreatedDesc coll.docs).map stripMongoId

/-- `mongo.py` `get_patient_by_id(patient_id)`: the not-found
sentinel `None` when disconnected, on a driver exception, or when
no document matches; else the first document matching the `id`
equality filter, with `_id` stripped. -/
def get_patient_by_id (st : MongoState) (beh : Driver) (pid : Int) :
    Option PatientRecord :=
  match st.patients_collection with
  | none => none
  | some coll =>
    match beh with
    | .raise _ => none
    | .normal => (coll.docs.find? (fun d => d.id == pid)).map stripMongoId

/-- `mongo.py` `update_patient(patient_id, update_data)`:
disconnected guard, then `update_one` with the `id` equality filter
and a `$set` document; success iff the modified count is positive,
else `{success: False, error: "Patient not found"}`. -/
def update_patient (st : MongoState) (beh : Driver) (pid : Int)
    (update_data : PatientUpdate) : SyncResult × MongoState :=
  match st.patients_collection with
  | none => ({ success := false, error := some "MongoDB not connected" }, st)
  | some coll =>
    match beh with
    | .raise msg => ({ success := false, error := some msg }, st)
    | .normal =>
      let r := update_one pid update_data coll.docs
      if 0 < r.1 then
        ({ success := true, modified_count := some r.1 },
         { st with patients_collection := some ⟨r.2, coll.nextOid⟩ })
      else
        ({ success := false, error := some "Patient not found" },
         { st with patients_collection := some ⟨r.2, coll.nextOid⟩ })

/-- `mongo.py` `delete_patient(patient_id)`: disconnected guard,
then `delete_one` with the `id` equality filter; success iff the
deleted count is positive, else
`{success: False, error: "Patient not found"}`. -/
def delete_patient (st : MongoState) (beh : Driver) (pid : Int) :
    SyncResult × MongoState :=
  match st.patients_collection with
  | none => ({ success := false, error := some "MongoDB not connected" }, st)
  | some coll =>
    match beh with
    | .raise msg => ({ success := false, error := some msg }, st)
    | .normal =>
      let r := delete_one pid coll.docs
      if 0 < r.1 then
        ({ success := true, deleted_count := some r.1 },
         { st with patients_collection := some ⟨r.2, coll.nextOid⟩ })
      else
        ({ success := false, error := some "Patient not found" },
         { st with patients_collection := some ⟨r.2, coll.nextOid⟩ })

/-- `mongo.py` `get_patient_count()`: zero when disconnected or on
a driver exception, else `count_documents({})`. -/
def get_patient_count (st : MongoState) (beh : Driver) : Nat :=
  match st.patients_collection with
  | none => 0
  | some coll =>
    match beh with
    | .raise _ => 0
    | .normal => coll.docs.length

/-- `mongo.py` `get_user_count()`: zero when disconnected or on a
driver exception, else `count_documents({})`. -/
def get_user_count (st : MongoState) (beh : Driver) : Nat :=
  match st.users_collection with
  | none => 0
  | some coll =>
    match beh with
    | .raise _ => 0
    | .normal => coll.docs.length

end Mongo

namespace App

/-- The Mongo mirror step of the `/patients` POST route
(`app.py`): the form fields are validated (`name`/`age`/`condition`
non-empty, `age` parses as an integer, `age > 0`), then the full
patient document with the copied relational `id`, a creation
timestamp, the session username and the `"web_form"` tag is
inserted; a driver exception is swallowed with a logged warning.
Only the document-store effect is modelled: the relational insert
producing `next_sql_id` is an external collaborator, and the form
field `age` arrives as the result of `int(age_s)` — `age_s = none`
covers both the empty field and the `ValueError` path, which leave
the store untouched. -/
def route_add_patient (st : MongoState) (beh : Driver) (now : Nat)
    (username : String) (next_sql_id : Int)
    (name : String) (age_s : Option Int) (cond : String) : MongoState :=
  if name = "" ∨ cond = "" then st
  else
    match age_s with
    | none => st
    | some age =>
      if age ≤ 0 then st
      else
        match st.patients_collection with
        | none => st
        | some coll =>
          match beh with
          | .raise _ => st
          | .normal =>
            let doc : PatientDoc :=
              { oid := coll.nextOid, id := next_sql_id, name := name,
                age := age, condition := cond, created_at := some now,
                added_by := some username, source := some "web_form" }
            { st with
               patients_collection := some ⟨coll.docs ++ [doc], coll.nextOid + 1⟩ }

/-- The Mongo mirror step of the `/patients/update` route
(`app.py`): `update_one({"id": pid}, {"$set": {name, age,
condition}}, upsert=True)` — when a document matches the filter it
is updated in place; when none matches, `upsert=True` makes the
store create a new document from the equality-filter field `id`
plus the three `$set` fields (so without `created_at`, `added_by`
or `source`).  A driver exception is swallowed with a logged
warning; a disconnected handle never reaches this code (the import
of `app.py` dereferences the database handle). -/
def route_update_patient (st : MongoState) (beh : Driver) (pid : Int)
    (name : String) (age : Int) (cond : String) : MongoState :=
  match st.patients_collection with
  | none => st
  | some coll =>
    match beh with
    | .raise _ => st
    | .normal =>
      let u : PatientUpdate :=
        { name := some name, age := some age, condition := some cond }
      if (coll.docs.find? (fun d => d.id == pid)).isSome then
        { st with
           patients_collection := some ⟨(update_one pid u coll.docs).2, coll.nextOid⟩ }
      else
        let doc : PatientDoc :=
          { oid := coll.nextOid, id := pid, name := name, age := age,
            condition := cond, created_at := none,
            added_by := none, source := none }
        { st with
           patients_collection := some ⟨coll.docs ++ [doc], coll.nextOid + 1⟩ }

end App

/-- The patient documents currently held by the mirrored store
(empty when the handle is absent). -/
def patientDocs (st : MongoState) : List PatientDoc :=
  match st.patients_collection with
  | none => []
  | some coll => coll.docs

/-- Whether the mirrored store holds a patient document with the
given external `id`. -/
def hasPatientId (st : MongoState) (i : Int) : Bool :=
  (patientDocs st).any (fun d => d.id == i)

/-- The module-level state after a failed `connect_to_mongodb()`:
all handles absent. -/
def disconnectedState : MongoState :=
  { users_collection := none, patients_collection := none }

/-- A connected state over empty collections, as left by a
successful connection to a fresh database. -/
def emptyConnectedState : MongoState :=
  { users_collection := some ({ docs := [], nextOid := 0 }),
    patients_collection := some ({ docs := [], nextOid := 0 }) }

/-- A sample mirrored patient document (the spec's example
scenario: id 42, name "A", age 30, condition "X", added by
"doc1"). -/
def sampleDoc : PatientDoc :=
  { oid := 0, id := 42, name := "A", age := 30, condition := "X",
    created_at := some 5, added_by := some "doc1",
    source := some "web_form" }

/-- A connected state whose patients collection holds exactly
`sampleDoc`. -/
def oneDocState : MongoState :=
  { users_collection := some ({ docs := [], nextOid := 0 }),
    patients_collection := some ({ docs := [sampleDoc], nextOid := 1 }) }

/-- The document the `/patients` insert route mirrors in the
witness scenario (form age "30", session user "doc", relational id
1, into the fresh empty store). -/
def routeDoc : PatientDoc :=
  { oid := 0, id := 1, name := "X", age := 30, condition := "c",
    created_at := some 3, added_by := some "doc",
    source := some "web_form" }

/-- The `$set` merge never touches the external `id` field. -/
theorem applySet_id (u : PatientUpdate) (d : PatientDoc) :
    (applySet u d).id = d.id := rfl

/-- The `$set` merge never touches the internal object identity. -/
theorem applySet_oid (u : PatientUpdate) (d : PatientDoc) :
    (applySet u d).oid = d.oid := rfl

/-- When no document matches the filter, `update_one` modifies
nothing and leaves the list unchanged. -/
theorem update_one_no_match (pid : Int) (u : PatientUpdate) :
    ∀ l : List PatientDoc, (∀ d ∈ l, d.id ≠ pid) →
      update_one pid u l = (0, l) := by
  intro l
  induction l with
  | nil => intro _; rfl
  | cons d ds ih =>
    intro h
    have hd : d.id ≠ pid := h d (List.mem_cons_self d ds)
    have hds := ih (fun x hx => h x (List.mem_cons_of_mem d hx))
    simp [update_one, hd, hds]

/-- When the first matching document is already equal to its
`$set` image, `update_one` reports a zero modified count. -/
theorem update_one_noop_of_find (pid : Int) (u : PatientUpdate) :
    ∀ l : List PatientDoc, ∀ d : PatientDoc,
      l.find? (fun x => x.id == pid) = some d →
      applySet u d = d → (update_one pid u l).1 = 0 := by
  intro l
  induction l with
  | nil => intro d h _; simp [List.find?] at h
  | cons x xs ih =>
    intro d hfind hnoop
    by_cases hx : x.id = pid
    · have hb : (x.id == pid) = true := by simpa using hx
      simp [List.find?, hb] at hfind
      subst hfind
      simp [update_one, hx, hnoop]
    · have hb : (x.id == pid) = false := by simpa using hx
      simp [List.find?, hb] at hfind
      simp [update_one, hx, ih d hfind hnoop]

/-- A zero modified count means `update_one` left the list as it
was. -/
theorem update_one_zero_eq (pid : Int) (u : PatientUpdate) :
    ∀ l : List PatientDoc, (update_one pid u l).1 = 0 →
      (update_one pid u l).2 = l := by
  intro l
  induction l with
  | nil => intro _; rfl
  | cons d ds ih =>
    intro h
    by_cases hd : d.id = pid
    · by_cases hn : applySet u d = d
      · simp [update_one, hd, hn]
      · simp [update_one, hd, hn] at h
    · simp [update_one, hd] at h ⊢
      exact ih h

/-- Appending a matching document to a list with no match makes
`update_one` rewrite exactly that document. -/
theorem update_one_append_last (pid : Int) (u : PatientUpdate) (x : PatientDoc)
    (hx : x.id = pid) :
    ∀ l : List PatientDoc, (∀ d ∈ l, d.id ≠ pid) →
      update_one pid u (l ++ [x]) =
        (if applySet u x = x then 0 else 1, l ++ [applySet u x]) := by
  intro l
  induction l with
  | nil => intro _; simp [update_one, hx]
  | cons d ds ih =>
    intro h
    have hd : d.id ≠ pid := h d (List.mem_cons_self d ds)
    have hds := ih (fun y hy => h y (List.mem_cons_of_mem d hy))
    simp [update_one, hd, hds]

/-- `update_one` preserves the multiset of external ids (the `$set`
merge never writes `id`). -/
theorem update_one_any_id (pid : Int) (u : PatientUpdate) (i : Int) :
    ∀ l : List PatientDoc,
      ((update_one pid u l).2).any (fun d => d.id == i) =
        l.any (fun d => d.id == i) := by
  intro l
  induction l with
  | nil => rfl
  | cons d ds ih =>
    by_cases hd : d.id = pid
    · have : (applySet u d).id = d.id := applySet_id u d
      simp [update_one, hd, List.any_cons, this]
    · simp [update_one, hd, List.any_cons, ih]

/-- When no document matches the filter, `delete_one` removes
nothing and leaves the list unchanged. -/
theorem delete_one_no_match (pid : Int) :
    ∀ l : List PatientDoc, (∀ d ∈ l, d.id ≠ pid) →
      delete_one pid l = (0, l) := by
  intro l
  induction l with
  | nil => intro _; rfl
  | cons d ds ih =>
    intro h
    have hd : d.id ≠ pid := h d (List.mem_cons_self d ds)
    have hds := ih (fun x hx => h x (List.mem_cons_of_mem d hx))
    simp [delete_one, hd, hds]

/-- A positive deleted count is exactly 1 and shrinks the list by
exactly one document. -/
theorem delete_one_pos (pid : Int) :
    ∀ l : List PatientDoc, 0 < (delete_one pid l).1 →
      (delete_one pid l).1 = 1 ∧ (delete_one pid l).2.length + 1 = l.length := by
  intro l
  induction l with
  | nil => intro h; simp [delete_one] at h
  | cons d ds ih =>
    intro h
    by_cases hd : d.id = pid
    · simp [delete_one, hd]
    · simp [delete_one, hd] at h ⊢
      exact ⟨(ih h).1, (ih h).2⟩

/-- When some document matches the filter, `delete_one` deletes. -/
theorem delete_one_of_any (pid : Int) :
    ∀ l : List PatientDoc, l.any (fun d => d.id == pid) = true →
      0 < (delete_one pid l).1 := by
  intro l
  induction l with
  | nil => intro h; simp at h
  | cons d ds ih =>
    intro h
    by_cases hd : d.id = pid
    · simp [delete_one, hd]
    · have hb : (d.id == pid) = false := by simpa using hd
      simp only [List.any_cons] at h
      rw [hb, Bool.false_or] at h
      simp [delete_one, hd]
      exact ih h

/-- Every document surviving `delete_one` was already present. -/
theorem delete_one_mem (pid : Int) :
    ∀ l : List PatientDoc, ∀ d, d ∈ (delete_one pid l).2 → d ∈ l := by
  intro l
  induction l with
  | nil => intro d h; simp [delete_one] at h
  | cons x xs ih =>
    intro d h
    by_cases hx : x.id = pid
    · simp [delete_one, hx] at h
      exact List.mem_cons_of_mem x h
    · simp [delete_one, hx] at h
      rcases h with h | h
      · exact h ▸ List.mem_cons_self x xs
      · exact List.mem_cons_of_mem x (ih d h)

/-- Appending one fresh match to a match-free list makes `find?`
return exactly that document. -/
theorem find?_append_last (pid : Int) (x : PatientDoc) (hx : x.id = pid) :
    ∀ l : List PatientDoc, (∀ d ∈ l, d.id ≠ pid) →
      (l ++ [x]).find? (fun d => d.id == pid) = some x := by
  intro l
  induction l with
  | nil => simp [List.find?, hx]
  | cons d ds ih =>
    intro h
    have hd : d.id ≠ pid := h d (List.mem_cons_self d ds)
    rw [List.cons_append, List.find?_cons_of_neg _ (by simpa using hd)]
    exact ih (fun y hy => h y (List.mem_cons_of_mem d hy))

/-- Presence of a `find?` match coincides with `any`. -/
theorem find?_isSome_any (p : PatientDoc → Bool) :
    ∀ l : List PatientDoc, (l.find? p).isSome = l.any p := by
  intro l
  induction l with
  | nil => rfl
  | cons d ds ih =>
    cases hpd : p d with
    | true => simp [List.find?_cons_of_pos _ hpd, List.any_cons, hpd]
    | false =>
      have hneg : ¬p d = true := by simp [hpd]
      simp [List.find?_cons_of_neg _ hneg, List.any_cons, hpd, ih]

/-- C1: with the collection handles absent (the disconnected
sentinel), every Record Synchronizer operation returns
`{success: false, error: "MongoDB not connected"}` with the state
untouched, both list queries return the empty sequence,
`get_patient_by_id` returns the not-found sentinel, and both counts
return zero — no operation raises. -/
theorem disconnected_mode_safe (st : MongoState)
    (hu : st.users_collection = none) (hp : st.patients_collection = none)
    (beh : Driver) (now : Nat) (username pw role nm cond ab : String)
    (pid ag : Int) (upd : PatientUpdate) :
    Mongo.insert_user st beh now username pw role =
      ({ success := false, error := some "MongoDB not connected" }, st) ∧
    Mongo.insert_patient st beh now pid nm ag cond ab =
      ({ success := false, error := some "MongoDB not connected" }, st) ∧
    Mongo.update_patient st beh pid upd =
      ({ success := false, error := some "MongoDB not connected" }, st) ∧
    Mongo.delete_patient st beh pid =
      ({ success := false, error := some "MongoDB not connected" }, st) ∧
    Mongo.get_all_users st beh = [] ∧
    Mongo.get_all_patients st beh = [] ∧
    Mongo.get_patient_by_id st beh pid = none ∧
    Mongo.get_patient_count st beh = 0 ∧
    Mongo.get_user_count st beh = 0 := by
  refine ⟨?_, ?_, ?_, ?_, ?_, ?_, ?_, ?_, ?_⟩ <;>
    simp [Mongo.insert_user, Mongo.insert_patient, Mongo.update_patient,
          Mongo.delete_patient, Mongo.get_all_users, Mongo.get_all_patients,
          Mongo.get_patient_by_id, Mongo.get_patient_count,
          Mongo.get_user_count, hu, hp]

/-- Witness for C1 at the concrete disconnected state. -/
theorem disconnected_mode_safe_witness :
    disconnectedState.users_collection = none ∧
    disconnectedState.patients_collection = none ∧
    Mongo.insert_user disconnectedState .normal 0 "u" "p" "doctor" =
      ({ success := false, error := some "MongoDB not connected" },
       disconnectedState) ∧
    Mongo.get_patient_count disconnectedState .normal = 0 :=
  ⟨rfl, rfl,
   (disconnected_mode_safe disconnectedState rfl rfl .normal 0
      "u" "p" "doctor" "n" "c" "a" 1 2 {}).1,
   (disconnected_mode_safe disconnectedState rfl rfl .normal 0
      "u" "p" "doctor" "n" "c" "a" 1 2 {}).2.2.2.2.2.2.2.1⟩

/-- C2: for every state and every driver behaviour (including a
thrown exception), each of the four Record Synchronizer operations
returns a structured result — success, or failure carrying an error
message — and when the handle is live and the driver throws `msg`,
the operation returns exactly `{success: false, error: msg}` with
the state untouched; none of the four propagates an exception. -/
theorem sync_ops_absorb_exceptions (st : MongoState) (beh : Driver)
    (now : Nat) (username pw role nm cond ab : String) (pid ag : Int)
    (upd : PatientUpdate) (msg : String) :
    ((Mongo.insert_user st beh now username pw role).1.success = true ∨
      (Mongo.insert_user st beh now username pw role).1.error.isSome = true) ∧
    ((Mongo.insert_patient st beh now pid nm ag cond ab).1.success = true ∨
      (Mongo.insert_patient st beh now pid nm ag cond ab).1.error.isSome = true) ∧
    ((Mongo.update_patient st beh pid upd).1.success = true ∨
      (Mongo.update_patient st beh pid upd).1.error.isSome = true) ∧
    ((Mongo.delete_patient st beh pid).1.success = true ∨
      (Mongo.delete_patient st beh pid).1.error.isSome = true) ∧
    (∀ coll, st.users_collection = some coll →
      Mongo.insert_user st (.raise msg) now username pw role =
        ({ success := false, error := some msg }, st)) ∧
    (∀ coll, st.patients_collection = some coll →
      Mongo.insert_patient st (.raise msg) now pid nm ag cond ab =
        ({ success := false, error := some msg }, st)) ∧
    (∀ coll, st.patients_collection = some coll →
      Mongo.update_patient st (.raise msg) pid upd =
        ({ success := false, error := some msg }, st)) ∧
    (∀ coll, st.patients_collection = some coll →
      Mongo.delete_patient st (.raise msg) pid =
        ({ success := false, error := some msg }, st)) := by
  refine ⟨?_, ?_, ?_, ?_, ?_, ?_, ?_, ?_⟩
  · rcases hu : st.users_collection with _ | coll <;> cases beh <;>
      simp [Mongo.insert_user, hu]
  · rcases hp : st.patients_collection with _ | coll <;> cases beh <;>
      simp [Mongo.insert_patient, hp]
  · rcases hp : st.patients_collection with _ | coll
    · cases beh <;> simp [Mongo.update_patient, hp]
    · cases beh
      · simp only [Mongo.update_patient, hp]
        split <;> simp
      · simp [Mongo.update_patient, hp]
  · rcases hp : st.patients_collection with _ | coll
    · cases beh <;> simp [Mongo.delete_patient, hp]
    · cases beh
      · simp only [Mongo.delete_patient, hp]
        split <;> simp
      · simp [Mongo.delete_patient, hp]
  · intro coll hu; simp [Mongo.insert_user, hu]
  · intro coll hp; simp [Mongo.insert_patient, hp]
  · intro coll hp; simp [Mongo.update_patient, hp]
  · intro coll hp; simp [Mongo.delete_patient, hp]

/-- Witness for C2 at a concrete connected state and a concrete
driver exception. -/
theorem sync_ops_absorb_exceptions_witness :
    emptyConnectedState.patients_collection = some ({ docs := [], nextOid := 0 }) ∧
    Mongo.update_patient emptyConnectedState (.raise "boom") 5 {} =
      ({ success := false, error := some "boom" }, emptyConnectedState) ∧
    ((Mongo.delete_patient emptyConnectedState .normal 5).1.success = true ∨
      (Mongo.delete_patient emptyConnectedState .normal 5).1.error.isSome = true) :=
  ⟨rfl,
   (sync_ops_absorb_exceptions emptyConnectedState .normal 0
      "u" "p" "doctor" "n" "c" "a" 5 2 {} "boom").2.2.2.2.2.2.1 _ rfl,
   (sync_ops_absorb_exceptions emptyConnectedState .normal 0
      "u" "p" "doctor" "n" "c" "a" 5 2 {} "boom").2.2.2.1⟩

/-- C3: inserting a patient with a fresh id `pid` succeeds, and a
subsequent `get_patient_by_id pid` returns a record whose `id`,
`name`, `age`, `condition` and `added_by` equal the inserted values
and whose `source` is the constant `"web_form"`, with the internal
object identity stripped from the result. -/
theorem insert_then_get_round_trip (st : MongoState)
    (coll : Collection PatientDoc) (hp : st.patients_collection = some coll)
    (now : Nat) (pid : Int) (nm : String) (ag : Int) (cond ab : String)
    (hfresh : ∀ d ∈ coll.docs, d.id ≠ pid) :
    (Mongo.insert_patient st .normal now pid nm ag cond ab).1.success = true ∧
    Mongo.get_patient_by_id
        (Mongo.insert_patient st .normal now pid nm ag cond ab).2 .normal pid =
      some { id := pid, name := nm, age := ag, condition := cond,
             created_at := some now, added_by := some ab,
             source := some "web_form" } := by
  constructor
  · simp [Mongo.insert_patient, hp]
  · simp only [Mongo.insert_patient, hp, Mongo.get_patient_by_id]
    rw [find?_append_last pid _ rfl coll.docs hfresh]
    rfl

/-- Witness for C3 at the spec's example scenario. -/
theorem insert_then_get_round_trip_witness :
    emptyConnectedState.patients_collection = some ({ docs := [], nextOid := 0 }) ∧
    (Mongo.insert_patient emptyConnectedState .normal 5 42 "A" 30 "X" "doc1").1.success = true ∧
    Mongo.get_patient_by_id
        (Mongo.insert_patient emptyConnectedState .normal 5 42 "A" 30 "X" "doc1").2 .normal 42 =
      some { id := 42, name := "A", age := 30, condition := "X",
             created_at := some 5, added_by := some "doc1",
             source := some "web_form" } :=
  ⟨rfl,
   (insert_then_get_round_trip emptyConnectedState _ rfl 5 42 "A" 30 "X" "doc1"
      (by simp)).1,
   (insert_then_get_round_trip emptyConnectedState _ rfl 5 42 "A" 30 "X" "doc1"
      (by simp)).2⟩

/-- C4: `update_patient` returns
`{success: false, error: "Patient not found"}` exactly when the
modified count is zero — which covers both "no document matches the
id filter" and "the first match already holds every written value"
(a no-op reports zero modified) — and returns success exactly when
the modified count is positive. -/
theorem update_not_found_semantics (st : MongoState)
    (coll : Collection PatientDoc) (hp : st.patients_collection = some coll)
    (pid : Int) (upd : PatientUpdate) :
    ((Mongo.update_patient st .normal pid upd).1 =
        { success := false, error := some "Patient not found" } ↔
      (update_one pid upd coll.docs).1 = 0) ∧
    ((Mongo.update_patient st .normal pid upd).1.success = true ↔
      0 < (update_one pid upd coll.docs).1) ∧
    ((∀ d ∈ coll.docs, d.id ≠ pid) →
      (Mongo.update_patient st .normal pid upd).1 =
        { success := false, error := some "Patient not found" }) ∧
    (∀ d, coll.docs.find? (fun x => x.id == pid) = some d →
      applySet upd d = d →
      (Mongo.update_patient st .normal pid upd).1 =
        { success := false, error := some "Patient not found" }) := by
  by_cases h : 0 < (update_one pid upd coll.docs).1
  · refine ⟨?_, ?_, ?_, ?_⟩
    · simp only [Mongo.update_patient, hp]
      simp [h, SyncResult.mk.injEq]
      omega
    · simp only [Mongo.update_patient, hp]
      simp [h]
    · intro hno
      have := update_one_no_match pid upd coll.docs hno
      rw [this] at h
      exact absurd h (by simp)
    · intro d hfind hnoop
      have := update_one_noop_of_find pid upd coll.docs d hfind hnoop
      omega
  · refine ⟨?_, ?_, ?_, ?_⟩
    · simp only [Mongo.update_patient, hp]
      simp [h]
      omega
    · simp only [Mongo.update_patient, hp]
      simp [h]
    · intro _
      simp only [Mongo.update_patient, hp]
      simp [h]
    · intro d _ _
      simp only [Mongo.update_patient, hp]
      simp [h]

/-- Witness for C4: a no-op update (the stored values already
equal the written ones) reports "Patient not found", and an update
of an absent id does too. -/
theorem update_not_found_semantics_witness :
    oneDocState.patients_collection = some ({ docs := [sampleDoc], nextOid := 1 }) ∧
    (Mongo.update_patient oneDocState .normal 42 { age := some 30 }).1 =
      { success := false, error := some "Patient not found" } ∧
    (Mongo.update_patient oneDocState .normal 7 { age := some 31 }).1 =
      { success := false, error := some "Patient not found" } :=
  ⟨rfl,
   (update_not_found_semantics oneDocState _ rfl 42 { age := some 30 }).2.2.2
     sampleDoc (by rfl) (by rfl),
   (update_not_found_semantics oneDocState _ rfl 7 { age := some 31 }).2.2.1
     (by intro d hd; simp [sampleDoc] at hd; simp [hd])⟩

/-- C6: on a connected store, a successful `insert_patient`
increases `get_patient_count` by exactly 1, and a successful
`delete_patient` decreases it by exactly 1. -/
theorem patient_count_monotonicity (st : MongoState)
    (coll : Collection PatientDoc) (hp : st.patients_collection = some coll)
    (now : Nat) (pid : Int) (nm : String) (ag : Int) (cond ab : String) :
    ((Mongo.insert_patient st .normal now pid nm ag cond ab).1.success = true →
      Mongo.get_patient_count
          (Mongo.insert_patient st .normal now pid nm ag cond ab).2 .normal =
        Mongo.get_patient_count st .normal + 1) ∧
    ((Mongo.delete_patient st .normal pid).1.success = true →
      Mongo.get_patient_count
          (Mongo.delete_patient st .normal pid).2 .normal + 1 =
        Mongo.get_patient_count st .normal) := by
  constructor
  · intro _
    simp [Mongo.insert_patient, hp, Mongo.get_patient_count]
  · intro hs
    simp only [Mongo.delete_patient, hp] at hs ⊢
    by_cases h : 0 < (delete_one pid coll.docs).1
    · rw [if_pos h] at hs ⊢
      simp [Mongo.get_patient_count, hp]
      exact (delete_one_pos pid coll.docs h).2
    · rw [if_neg h] at hs
      simp at hs
/-- Witness for C6: inserting into the empty connected store takes
the count from 0 to 1, and deleting the one stored patient takes it
from 1 back to 0. -/
theorem patient_count_monotonicity_witness :
    (Mongo.insert_patient emptyConnectedState .normal 5 42 "A" 30 "X" "doc1").1.success = true ∧
    Mongo.get_patient_count
        (Mongo.insert_patient emptyConnectedState .normal 5 42 "A" 30 "X" "doc1").2 .normal =
      Mongo.get_patient_count emptyConnectedState .normal + 1 ∧
    (Mongo.delete_patient oneDocState .normal 42).1.success = true ∧
    Mongo.get_patient_count (Mongo.delete_patient oneDocState .normal 42).2 .normal + 1 =
      Mongo.get_patient_count oneDocState .normal :=
  ⟨rfl,
   (patient_count_monotonicity emptyConnectedState _ rfl 5 42 "A" 30 "X" "doc1").1 rfl,
   rfl,
   (patient_count_monotonicity oneDocState _ rfl 5 42 "A" 30 "X" "doc1").2 rfl⟩

/-- C7: on a connected store, `delete_patient` on an id matching no
stored document returns
`{success: false, error: "Patient not found"}` and leaves the state
— in particular `get_patient_count` — unchanged; it succeeds only
when the deleted count is positive. -/
theorem delete_not_found_noop (st : MongoState)
    (coll : Collection PatientDoc) (hp : st.patients_collection = some coll)
    (pid : Int) :
    ((∀ d ∈ coll.docs, d.id ≠ pid) →
      Mongo.delete_patient st .normal pid =
        ({ success := false, error := some "Patient not found" }, st) ∧
      Mongo.get_patient_count (Mongo.delete_patient st .normal pid).2 .normal =
        Mongo.get_patient_count st .normal) ∧
    ((Mongo.delete_patient st .normal pid).1.success = true →
      0 < (delete_one pid coll.docs).1) := by
  constructor
  · intro hno
    have hdel := delete_one_no_match pid coll.docs hno
    have hst : Mongo.delete_patient st .normal pid =
        ({ success := false, error := some "Patient not found" }, st) := by
      simp only [Mongo.delete_patient, hp, hdel]
      simp only [Nat.lt_irrefl, if_false]
      cases st with
      | mk u p =>
        simp at hp
        simp [hp]
    exact ⟨hst, by rw [hst]⟩
  · intro hs
    simp only [Mongo.delete_patient, hp] at hs
    by_cases h : 0 < (delete_one pid coll.docs).1
    · exact h
    · rw [if_neg h] at hs
      simp at hs

/-- Witness for C7: deleting the never-inserted id 7 from a store
holding only id 42 reports "Patient not found" and leaves the state
unchanged. -/
theorem delete_not_found_noop_witness :
    (∀ d ∈ [sampleDoc], d.id ≠ (7 : Int)) ∧
    Mongo.delete_patient oneDocState .normal 7 =
      ({ success := false, error := some "Patient not found" }, oneDocState) ∧
    Mongo.get_patient_count (Mongo.delete_patient oneDocState .normal 7).2 .normal =
      Mongo.get_patient_count oneDocState .normal :=
  ⟨by decide,
   ((delete_not_found_noop oneDocState _ rfl 7).1 (by decide)).1,
   ((delete_not_found_noop oneDocState _ rfl 7).1 (by decide)).2⟩

/-- C10: even when several stored documents share the same id
(possible when unique-index creation failed), one successful
`delete_patient` call removes exactly one document: the deleted
count is 1 and `get_patient_count` drops by exactly 1. -/
theorem delete_removes_at_most_one (st : MongoState)
    (coll : Collection PatientDoc) (hp : st.patients_collection = some coll)
    (pid : Int)
    (hdup : 2 ≤ (coll.docs.filter (fun d => d.id == pid)).length) :
    (Mongo.delete_patient st .normal pid).1.success = true ∧
    (delete_one pid coll.docs).1 = 1 ∧
    Mongo.get_patient_count (Mongo.delete_patient st .normal pid).2 .normal + 1 =
      Mongo.get_patient_count st .normal := by
  have hne : coll.docs.filter (fun d => d.id == pid) ≠ [] := by
    intro hnil
    rw [hnil] at hdup
    simp at hdup
  obtain ⟨x, hx⟩ := List.exists_mem_of_ne_nil _ hne
  have hany : coll.docs.any (fun d => d.id == pid) = true :=
    List.any_eq_true.mpr ⟨x, (List.mem_filter.mp hx).1, (List.mem_filter.mp hx).2⟩
  have h : 0 < (delete_one pid coll.docs).1 := delete_one_of_any pid coll.docs hany
  refine ⟨?_, (delete_one_pos pid coll.docs h).1, ?_⟩
  · simp only [Mongo.delete_patient, hp]
    rw [if_pos h]
  · simp only [Mongo.delete_patient, hp]
    rw [if_pos h]
    simp [Mongo.get_patient_count, hp]
    exact (delete_one_pos pid coll.docs h).2

/-- Witness for C10 on a store holding two documents with id 42:
the delete succeeds and removes exactly one of them. -/
theorem delete_removes_at_most_one_witness :
    2 ≤ (([sampleDoc, { sampleDoc with oid := 1 }].filter
      (fun d => d.id == (42 : Int))).length) ∧
    (Mongo.delete_patient
      { users_collection := none,
        patients_collection := some ⟨[sampleDoc, { sampleDoc with oid := 1 }], 2⟩ }
      .normal 42).1.success = true ∧
    Mongo.get_patient_count
        (Mongo.delete_patient
          { users_collection := none,
            patients_collection := some ⟨[sampleDoc, { sampleDoc with oid := 1 }], 2⟩ }
          .normal 42).2 .normal + 1 =
      Mongo.get_patient_count
        { users_collection := none,
          patients_collection := some ⟨[sampleDoc, { sampleDoc with oid := 1 }], 2⟩ }
        .normal :=
  ⟨by decide,
   (delete_removes_at_most_one _ _ rfl 42 (by decide)).1,
   (delete_removes_at_most_one _ _ rfl 42 (by decide)).2.2⟩

/-- C8: after inserting a patient with a fresh id and then calling
`update_patient` with only the `age` field named, `get_patient_by_id`
shows the new age with `name`, `condition`, `added_by`, `source`
and `created_at` all equal to their insert-time values; in general
the `$set` merge changes only the named fields of the matched
document. -/
theorem update_round_trip_frame (st : MongoState)
    (coll : Collection PatientDoc) (hp : st.patients_collection = some coll)
    (now : Nat) (pid : Int) (nm : String) (ag ag2 : Int) (cond ab : String)
    (hfresh : ∀ d ∈ coll.docs, d.id ≠ pid) :
    Mongo.get_patient_by_id
        (Mongo.update_patient
          (Mongo.insert_patient st .normal now pid nm ag cond ab).2
          .normal pid { age := some ag2 }).2 .normal pid =
      some { id := pid, name := nm, age := ag2, condition := cond,
             created_at := some now, added_by := some ab,
             source := some "web_form" } ∧
    (∀ u : PatientUpdate, ∀ d : PatientDoc,
      (u.name = none → (applySet u d).name = d.name) ∧
      (u.age = none → (applySet u d).age = d.age) ∧
      (u.condition = none → (applySet u d).condition = d.condition) ∧
      (u.added_by = none → (applySet u d).added_by = d.added_by) ∧
      (u.source = none → (applySet u d).source = d.source) ∧
      (u.created_at = none → (applySet u d).created_at = d.created_at) ∧
      (applySet u d).id = d.id ∧ (applySet u d).oid = d.oid) := by
  constructor
  · have hu := update_one_append_last pid
      { name := none, age := some ag2, condition := none, added_by := none,
        source := none, created_at := none }
      { oid := coll.nextOid, id := pid, name := nm, age := ag,
        condition := cond, created_at := some now, added_by := some ab,
        source := some "web_form" }
      rfl coll.docs hfresh
    have hf := find?_append_last pid
      (applySet
        { name := none, age := some ag2, condition := none, added_by := none,
          source := none, created_at := none }
        { oid := coll.nextOid, id := pid, name := nm, age := ag,
          condition := cond, created_at := some now, added_by := some ab,
          source := some "web_form" })
      rfl coll.docs hfresh
    simp [Mongo.insert_patient, hp, Mongo.update_patient, hu,
          apply_ite Prod.snd, Mongo.get_patient_by_id, hf,
          stripMongoId, applySet]
    exact ⟨_, Or.inr ⟨hfresh, rfl⟩, rfl, rfl, rfl, rfl, rfl, rfl, rfl⟩
  · intro u d
    refine ⟨fun h => by simp [applySet, h], fun h => by simp [applySet, h],
            fun h => by simp [applySet, h], fun h => by simp [applySet, h],
            fun h => by simp [applySet, h], fun h => by simp [applySet, h],
            rfl, rfl⟩

/-- Witness for C8 at the spec's round-trip scenario: insert id 42
age 30, update the age to 31, read back age 31 with all other
fields as inserted. -/
theorem update_round_trip_frame_witness :
    Mongo.get_patient_by_id
        (Mongo.update_patient
          (Mongo.insert_patient emptyConnectedState .normal 5 42 "A" 30 "X" "doc1").2
          .normal 42 { age := some 31 }).2 .normal 42 =
      some { id := 42, name := "A", age := 31, condition := "X",
             created_at := some 5, added_by := some "doc1",
             source := some "web_form" } :=
  (update_round_trip_frame emptyConnectedState _ rfl 5 42 "A" 30 31 "X" "doc1"
    (by simp)).1

/-- C5 is refuted on the code: the `/patients/update` route's
Mongo mirror passes `upsert=True`, so an update targeting id 7 on a
connected store holding no document with id 7 creates one — a
backfilled partial document holding only the filter field and the
three `$set` fields. -/
theorem upsert_creates_missing_doc :
    hasPatientId emptyConnectedState 7 = false ∧
    hasPatientId
      (App.route_update_patient emptyConnectedState .normal 7 "B" 33 "Y") 7 = true ∧
    patientDocs
      (App.route_update_patient emptyConnectedState .normal 7 "B" 33 "Y") =
      [{ oid := 0, id := 7, name := "B", age := 33, condition := "Y",
         created_at := none, added_by := none, source := none }] :=
  ⟨rfl, rfl, rfl⟩

/-- C5 (amended): a mirrored patient document with a given id is
never created by `mongo.py`'s `update_patient` or `delete_patient`
— the set of mirrored ids never grows under them — but the
`/patients/update` route's mirror step uses `upsert=True` and does
create a partial document when no document with the target id
exists. -/
theorem mirrored_doc_creation_paths (st : MongoState) (beh : Driver)
    (pid i : Int) (upd : PatientUpdate) (nm cond : String) (ag : Int) :
    (hasPatientId (Mongo.update_patient st beh pid upd).2 i = true →
      hasPatientId st i = true) ∧
    (hasPatientId (Mongo.delete_patient st beh pid).2 i = true →
      hasPatientId st i = true) ∧
    (∀ coll, st.patients_collection = some coll →
      hasPatientId st pid = false →
      hasPatientId
        (App.route_update_patient st .normal pid nm ag cond) pid = true) := by
  refine ⟨?_, ?_, ?_⟩
  · rcases hp : st.patients_collection with _ | coll
    · cases beh <;> simp [Mongo.update_patient, hp]
    · cases beh
      · simp only [Mongo.update_patient, hp, apply_ite Prod.snd, ite_self]
        intro h
        simp only [hasPatientId, patientDocs, hp] at h ⊢
        rw [update_one_any_id] at h
        exact h
      · simp [Mongo.update_patient, hp]
  · rcases hp : st.patients_collection with _ | coll
    · cases beh <;> simp [Mongo.delete_patient, hp]
    · cases beh
      · simp only [Mongo.delete_patient, hp, apply_ite Prod.snd, ite_self]
        intro h
        simp only [hasPatientId, patientDocs, hp] at h ⊢
        rw [List.any_eq_true] at h ⊢
        obtain ⟨d, hd, hdi⟩ := h
        exact ⟨d, delete_one_mem pid coll.docs d hd, hdi⟩
      · simp [Mongo.delete_patient, hp]
  · intro coll hp hmiss
    simp only [hasPatientId, patientDocs, hp] at hmiss
    have hfind : (coll.docs.find? (fun d => d.id == pid)).isSome = false := by
      rw [find?_isSome_any]
      exact hmiss
    simp only [App.route_update_patient, hp, hfind]
    simp [hasPatientId, patientDocs, List.any_append]

/-- Witness for the amended C5: on a one-document store, updating
or deleting id 7 through `mongo.py` leaves id 7 absent, while the
route's upsert creates it. -/
theorem mirrored_doc_creation_paths_witness :
    oneDocState.patients_collection = some ({ docs := [sampleDoc], nextOid := 1 }) ∧
    hasPatientId oneDocState 7 = false ∧
    (hasPatientId (Mongo.update_patient oneDocState .normal 7 { age := some 1 }).2 7 = true →
      hasPatientId oneDocState 7 = true) ∧
    hasPatientId
      (App.route_update_patient oneDocState .normal 7 "B" 33 "Y") 7 = true :=
  ⟨rfl, rfl,
   (mirrored_doc_creation_paths oneDocState .normal 7 7
      { age := some 1 } "B" "Y" 33).1,
   (mirrored_doc_creation_paths oneDocState .normal 7 7
      { age := some 1 } "B" "Y" 33).2.2 _ rfl rfl⟩

/-- C9 is refuted on the code: `insert_patient` stores the given
age without validation — with a live handle, inserting age 0
succeeds and the stored document's age is 0, which is not a
positive integer. -/
theorem insert_patient_stores_nonpositive_age :
    (Mongo.insert_patient emptyConnectedState .normal 3 1 "X" 0 "c" "doc").1.success = true ∧
    patientDocs (Mongo.insert_patient emptyConnectedState .normal 3 1 "X" 0 "c" "doc").2 =
      [{ oid := 0, id := 1, name := "X", age := 0, condition := "c",
         created_at := some 3, added_by := some "doc",
         source := some "web_form" }] ∧
    ¬(0 < (0 : Int)) :=
  ⟨rfl, rfl, by decide⟩

/-- C9 (amended): the `/patients` insert route validates
`age > 0` before mirroring, so every patient document the route
adds to the store has a positive age; `insert_patient` itself
enforces no such check and stores whatever age it is given. -/
theorem route_add_patient_age_positive (st : MongoState) (beh : Driver)
    (now : Nat) (username : String) (nid : Int) (nm cond : String)
    (ags : Option Int) (d : PatientDoc)
    (hd : d ∈ patientDocs (App.route_add_patient st beh now username nid nm ags cond)) :
    d ∈ patientDocs st ∨ 0 < d.age := by
  simp only [App.route_add_patient] at hd
  split at hd
  · exact Or.inl hd
  · split at hd
    · exact Or.inl hd
    · next age =>
      split at hd
      · exact Or.inl hd
      · next hage =>
        split at hd
        · exact Or.inl hd
        · next coll hcoll =>
          split at hd
          · exact Or.inl hd
          · simp only [patientDocs] at hd
            rcases List.mem_append.mp hd with h | h
            · refine Or.inl ?_
              simp only [patientDocs, hcoll]
              exact h
            · right
              have hde := List.mem_singleton.mp h
              rw [hde]
              show 0 < age
              omega

/-- Witness for the amended C9: the route inserting a patient with
form age "30" yields a stored document whose age 30 is positive. -/
theorem route_add_patient_age_positive_witness :
    routeDoc ∈
      patientDocs
        (App.route_add_patient emptyConnectedState .normal 3 "doc" 1 "X" (some 30) "c") ∧
    (routeDoc ∈ patientDocs emptyConnectedState ∨ 0 < routeDoc.age) := by
  have hlist : patientDocs
      (App.route_add_patient emptyConnectedState .normal 3 "doc" 1 "X" (some 30) "c") =
      [routeDoc] := rfl
  have hmem : routeDoc ∈
      patientDocs
        (App.route_add_patient emptyConnectedState .normal 3 "doc" 1 "X" (some 30) "c") := by
    rw [hlist]
    exact List.mem_singleton_self _
  exact ⟨hmem,
    route_add_patient_age_positive emptyConnectedState .normal 3 "doc" 1
      "X" "c" (some 30) _ hmem⟩

end HospitalSync
